import Mathlib

/-!
Shallow embedding of the UGA nutrition app (src/app.py, src/groq_agent.py)
for checking the natural-language specification against the code.

Python machine floats are modelled as exact rationals (ℚ); `int()` is
truncation toward zero; `round()` is round-half-to-even.  Source cells of
the menu CSV are modelled as `Option String`, where `none` stands for a
missing value (NaN / None).

All embedded operations are written so that they evaluate inside the
kernel: rational values are built with `Rat.divInt` over integer
arithmetic, and string manipulation is done on the underlying character
lists (the `Substring`-based library functions do not reduce).  Bridge
lemmas relate the evaluable forms to the ordinary `ℚ` operations.
-/

set_option maxRecDepth 4000

namespace NutritionApp

/-- Kernel-evaluable multiplication on `ℚ` (Python `*` on floats, under the
exact-rational model).  Provably equal to `a * b`. -/
def qmul (a b : ℚ) : ℚ := Rat.divInt (a.num * b.num) ((a.den : ℤ) * b.den)

/-- Kernel-evaluable addition on `ℚ`.  Provably equal to `a + b`. -/
def qadd (a b : ℚ) : ℚ :=
  Rat.divInt (a.num * b.den + b.num * a.den) ((a.den : ℤ) * b.den)

/-- Kernel-evaluable division on `ℚ`.  Provably equal to `a / b`. -/
def qdiv (a b : ℚ) : ℚ := Rat.divInt (a.num * b.den) ((a.den : ℤ) * b.num)

/-- Kernel-evaluable list sum on `ℚ`.  Provably equal to `List.sum`. -/
def qsum : List ℚ → ℚ
  | [] => 0
  | x :: xs => qadd x (qsum xs)

/-- Python `int()` applied to a number: truncation toward zero. -/
def pyInt (q : ℚ) : ℤ := q.num.tdiv q.den

/-- Python `round()` to an integer: round half to even. -/
def pyRound (q : ℚ) : ℤ :=
  let f := q.num.fdiv q.den
  let r2 := 2 * (q.num - f * q.den)
  if r2 < (q.den : ℤ) then f
  else if (q.den : ℤ) < r2 then f + 1
  else if f % 2 = 0 then f else f + 1

/-- The whitespace characters removed by Python `str.strip()` (ASCII part). -/
def isPySpace (c : Char) : Bool :=
  c = ' ' || c = '\t' || c = '\n' || c = '\r' || c = '\x0b' || c = '\x0c'

/-- Python `str.strip()` on a character list. -/
def trimL (cs : List Char) : List Char :=
  ((cs.dropWhile isPySpace).reverse.dropWhile isPySpace).reverse

/-- Python `str.strip()`. -/
def pyStrip (s : String) : String := String.mk (trimL s.data)

/-- Python `str.lower()` (ASCII case folding). -/
def lowerS (s : String) : String := String.mk (s.data.map Char.toLower)

/-- Python `str.endswith(suf)` on character lists. -/
def endsWithL (cs suf : List Char) : Bool := suf.reverse.isPrefixOf cs.reverse

/-- Python `str.endswith(suf)`. -/
def endsWithS (s suf : String) : Bool := endsWithL s.data suf.data

/-- Python slicing `s[:-n]`: drop the last `n` characters. -/
def dropRightS (s : String) (n : Nat) : String :=
  String.mk (s.data.take (s.data.length - n))

/-- Numeric value of a digit string, read left to right. -/
def digitsVal (cs : List Char) : Nat :=
  cs.foldl (fun a c => 10 * a + (c.toNat - 48)) 0

/-- Split a character list at the first character satisfying `p`:
returns the parts strictly before and strictly after that character. -/
def splitFirst (p : Char → Bool) : List Char → Option (List Char × List Char)
  | [] => none
  | c :: cs =>
    if p c then some ([], cs)
    else match splitFirst p cs with
      | none => none
      | some (a, b) => some (c :: a, b)

/-- Mantissa of a decimal literal: digits with at most one decimal point and
at least one digit in total (`"5."`, `".5"`, `"5.25"`, `"5"`).  Returns the
digits read as one integer together with the number of fraction digits. -/
def parseMantissa (cs : List Char) : Option (ℕ × ℕ) :=
  match splitFirst (fun c => c = '.') cs with
  | none =>
    if !cs.isEmpty && cs.all Char.isDigit then some (digitsVal cs, 0) else none
  | some (i, f) =>
    if !(i.isEmpty && f.isEmpty) && i.all Char.isDigit && f.all Char.isDigit then
      some (digitsVal i * 10 ^ f.length + digitsVal f, f.length)
    else none

/-- An optionally signed nonempty digit string, as an integer. -/
def parseSignedDigits (cs : List Char) : Option ℤ :=
  match cs with
  | '+' :: t => if !t.isEmpty && t.all Char.isDigit then some (digitsVal t : ℤ) else none
  | '-' :: t => if !t.isEmpty && t.all Char.isDigit then some (-(digitsVal t : ℤ)) else none
  | t => if !t.isEmpty && t.all Char.isDigit then some (digitsVal t : ℤ) else none

/-- Model of Python `float(str)` restricted to finite decimal literals: an
optional sign, a mantissa with at most one decimal point, and an optional
`e`/`E` exponent; surrounding whitespace ignored.  `inf`, `nan` and
underscore digit separators are outside the model.  `none` models the
`ValueError` the builtin raises on an invalid literal. -/
def pyFloat (s : String) : Option ℚ :=
  let cs := trimL s.data
  let sb : ℤ × List Char :=
    match cs with
    | '+' :: t => (1, t)
    | '-' :: t => (-1, t)
    | t => (1, t)
  let build : ℕ × ℕ → ℤ → ℚ := fun m ex =>
    let e : ℤ := ex - (m.2 : ℤ)
    if 0 ≤ e then Rat.divInt (sb.1 * (m.1 : ℤ) * 10 ^ e.toNat) 1
    else Rat.divInt (sb.1 * (m.1 : ℤ)) (10 ^ (-e).toNat)
  match splitFirst (fun c => c = 'e' || c = 'E') sb.2 with
  | none => (parseMantissa sb.2).map (fun m => build m 0)
  | some (me, ee) => do
      let m ← parseMantissa me
      let ex ← parseSignedDigits ee
      pure (build m ex)

/-- The unit suffixes checked by `parse_nutrition_value`, in source order
(longest-matching candidates first). -/
def UNIT_SUFFIXES : List String := ["kcal", "cal", "mg", "g"]

/-- One pass of the suffix-stripping loop in `parse_nutrition_value`
(src/app.py lines 66-69): the first suffix the lowercased string ends with
is removed (by character count) and the remainder re-stripped; the loop
then breaks. -/
def stripOneSuffix (s : String) : String :=
  match UNIT_SUFFIXES.find? (fun suf => endsWithS (lowerS s) suf) with
  | some suf => pyStrip (dropRightS s suf.data.length)
  | none => s

/-- `parse_nutrition_value` (src/app.py lines 62-73).  The argument models
the raw cell: `none` for a missing value (`pd.isna` / `None`), `some s` for
the string contents.  The `getD 0` is the `except ValueError: return 0.0`. -/
def parse_nutrition_value (value : Option String) : ℚ :=
  match value with
  | none => 0
  | some v =>
    if v = "" then 0
    else (pyFloat (stripOneSuffix (pyStrip v))).getD 0

/-- The fixed keyword table `FOOD_GROUP_KEYWORDS` (src/app.py lines 116-137),
in source (insertion) order. -/
def FOOD_GROUP_KEYWORDS : List (String × List String) := [
  ("Protein", ["chicken", "beef", "pork", "turkey", "fish", "salmon", "tuna", "shrimp",
               "egg", "tofu", "sausage", "bacon", "steak", "burger", "meatball", "lamb",
               "wings", "tenderloin", "brisket", "ham", "falafel", "crab", "lobster"]),
  ("Grains", ["bread", "rice", "pasta", "noodle", "tortilla", "wrap", "biscuit", "roll",
              "cereal", "oatmeal", "grits", "bagel", "muffin", "pancake", "waffle",
              "crouton", "couscous", "quinoa", "pita", "croissant"]),
  ("Vegetables", ["broccoli", "carrot", "spinach", "kale", "lettuce", "tomato", "pepper",
                  "onion", "cucumber", "corn", "bean", "pea", "squash", "zucchini",
                  "celery", "mushroom", "potato", "sweet potato", "cabbage", "asparagus",
                  "cauliflower", "salad", "veggie", "vegetable", "greens", "collard"]),
  ("Fruits", ["apple", "banana", "orange", "berry", "strawberry", "blueberry", "grape",
              "melon", "watermelon", "pineapple", "mango", "peach", "pear", "fruit"]),
  ("Dairy", ["cheese", "milk", "yogurt", "cream", "butter", "ice cream", "cottage",
             "mozzarella", "cheddar", "parmesan", "provolone"]),
  ("Fats & Oils", ["oil", "dressing", "mayo", "mayonnaise", "ranch", "vinaigrette",
                   "guacamole", "avocado", "nuts", "almond", "peanut", "walnut"]),
  ("Sweets & Desserts", ["cake", "cookie", "brownie", "pie", "donut", "pastry", "candy",
                         "chocolate", "pudding", "dessert", "cobbler", "sweet"]),
  ("Beverages", ["juice", "coffee", "tea", "soda", "lemonade", "smoothie", "water",
                 "drink", "beverage", "shake"])]

/-- Python substring test `kw in text`, on character lists. -/
def listContains : List Char → List Char → Bool
  | text, kw =>
    kw.isPrefixOf text ||
      match text with
      | [] => false
      | _ :: rest => listContains rest kw

/-- Python substring test `kw in text` on strings. -/
def strContains (text kw : String) : Bool := listContains text.data kw.data

/-- Score of one keyword group: number of its keywords occurring in `text`
(`sum(1 for kw in keywords if kw in text)`). -/
def groupScore (text : String) (kws : List String) : Nat :=
  kws.countP (fun kw => strContains text kw)

/-- The best-score fold of `_classify_food_group`: iterate groups in table
order, update the best only on a strictly greater score. -/
def classifyFold (text : String) : List (String × List String) → String × Nat → String × Nat
  | [], best => best
  | g :: rest, best =>
    classifyFold text rest
      (if best.2 < groupScore text g.2 then (g.1, groupScore text g.2) else best)

/-- `_classify_food_group` (src/app.py lines 139-148); the scanned text is
`f"{name} {category}".lower()`. -/
def _classify_food_group (category name : String) : String :=
  (classifyFold (lowerS (name ++ " " ++ category)) FOOD_GROUP_KEYWORDS ("Other", 0)).1

/-- A raw row of `uga-nutrition-export.csv` as seen by `load_menu_from_csv`
(src/app.py lines 82-113).  Each cell is `none` for a missing value (NaN),
`some s` for the cell's textual contents; the standard columns-present case
is modelled. -/
structure RawRow where
  location : Option String
  category : Option String
  name : Option String
  servingSize : Option String
  caloriesVal : Option String
  totalFatVal : Option String
  totalCarbVal : Option String
  proteinVal : Option String
  dietaryFiberVal : Option String
deriving DecidableEq

/-- The subset of columns `drop_duplicates` keys on:
`(Recipe_Print_As_Name, Location_Name, Menu_Category_Name)`, taken on the
raw (pre-strip) cell values; pandas treats NaN cells as equal here. -/
def rawKey (r : RawRow) : Option String × Option String × Option String :=
  (r.name, r.location, r.category)

/-- Worker of `dropDuplicates`: keep a row only when its key has not been
seen before, scanning in input order. -/
def dropDupAux (seen : List (Option String × Option String × Option String)) :
    List RawRow → List RawRow
  | [] => []
  | r :: rs =>
    if rawKey r ∈ seen then dropDupAux seen rs
    else r :: dropDupAux (rawKey r :: seen) rs

/-- `df.drop_duplicates(subset=[...])` with the default keep-first
behaviour: the first row of each key survives, in input order. -/
def dropDuplicates (rows : List RawRow) : List RawRow := dropDupAux [] rows

/-- Python `str()` applied to a cell: a NaN cell prints as `"nan"`. -/
def strCell : Option String → String
  | none => "nan"
  | some s => s

/-- A loaded catalog item (the dict built in src/app.py lines 100-111;
the constant `tags: []` field is omitted). -/
structure MenuItem where
  name : String
  hall : String
  meal : String
  calories : ℚ
  protein : ℚ
  carbs : ℚ
  fat : ℚ
  fiber : ℚ
  serving_size : String
  food_group : String
deriving DecidableEq

/-- The per-row body of the loader loop: skip the row when the name cell is
NaN or blank after stripping, otherwise build the catalog item. -/
def rowToItem (r : RawRow) : Option MenuItem :=
  match r.name with
  | none => none
  | some n =>
    if pyStrip n = "" then none
    else some {
      name := pyStrip n
      hall := pyStrip (strCell r.location)
      meal := pyStrip (strCell r.category)
      calories := parse_nutrition_value r.caloriesVal
      protein := parse_nutrition_value r.proteinVal
      carbs := parse_nutrition_value r.totalCarbVal
      fat := parse_nutrition_value r.totalFatVal
      fiber := parse_nutrition_value r.dietaryFiberVal
      serving_size := match r.servingSize with
        | some s => s
        | none => "1 serving"
      food_group := _classify_food_group (strCell r.category) (strCell r.name) }

/-- The row-processing core of `load_menu_from_csv`: deduplicate on the raw
key, then build items row by row in order. -/
def load_menu_rows (rows : List RawRow) : List MenuItem :=
  (dropDuplicates rows).filterMap rowToItem

/-- Outcome of reading the CSV once the file exists: either the parsed
rows, or an I/O or parse exception raised by `pd.read_csv`. -/
inductive CsvRead where
  | ok (rows : List RawRow)
  | ioError (msg : String)

/-- `load_menu_from_csv` (src/app.py lines 75-113) at its boundary.
`fileExists` models `os.path.exists(file_path)`; the normal return carries
the list of emitted `st.warning` messages together with the catalog, and
`Except.error` models an exception escaping the function (the call to
`pd.read_csv` is not guarded by any try/except). -/
def load_menu_from_csv (fileExists : Bool) (read : CsvRead) :
    Except String (List String × List MenuItem) :=
  if fileExists then
    match read with
    | .ok rows => .ok ([], load_menu_rows rows)
    | .ioError e => .error e
  else
    .ok (["Menu CSV not found."], [])

/-- `dict.get(key, 0)`-style lookup in a string-keyed dict, modelled as an
association list in insertion order. -/
def dictGet (d : List (String × ℚ)) (k : String) : Option ℚ :=
  (d.find? (fun p => p.1 == k)).map (·.2)

/-- One `{"low": ..., "high": ...}` pair of `get_target_range` (both values
produced by `int(...)`). -/
structure IntRange where
  low : ℤ
  high : ℤ
deriving DecidableEq

/-- The dict returned by `get_target_range`: one range per macro. -/
structure TargetRanges where
  calories : IntRange
  protein : IntRange
  carbs : IntRange
  fat : IntRange
  fiber : IntRange
deriving DecidableEq

/-- `get_target_range` (src/app.py lines 292-304).  The multipliers are the
exact decimal values of the source literals. -/
def get_target_range (base_targets : List (String × ℚ)) (day_type : String) :
    TargetRanges :=
  let m : ℚ × ℚ :=
    if day_type = "Rest Day" then (Rat.divInt 85 100, Rat.divInt 95 100)
    else if day_type = "Active Rest Day" then (Rat.divInt 95 100, Rat.divInt 105 100)
    else (1, Rat.divInt 115 100)
  let range : String → IntRange := fun k =>
    let b := (dictGet base_targets k).getD 0
    ⟨pyInt (qmul b m.1), pyInt (qmul b m.2)⟩
  { calories := range "calories", protein := range "protein",
    carbs := range "carbs", fat := range "fat", fiber := ⟨25, 35⟩ }

/-- The range dict as the spec words it: each base macro target scaled by
the day type's (low, high) multiplier pair with each product truncated to
an integer, and a fixed absolute fiber band of 25-35 independent of the
multiplier.  Stated with the ordinary `ℚ` product for comparison with
`get_target_range`. -/
def specRanges (base : List (String × ℚ)) (lo hi : ℚ) : TargetRanges :=
  { calories := ⟨pyInt ((dictGet base "calories").getD 0 * lo),
                pyInt ((dictGet base "calories").getD 0 * hi)⟩,
    protein := ⟨pyInt ((dictGet base "protein").getD 0 * lo),
               pyInt ((dictGet base "protein").getD 0 * hi)⟩,
    carbs := ⟨pyInt ((dictGet base "carbs").getD 0 * lo),
             pyInt ((dictGet base "carbs").getD 0 * hi)⟩,
    fat := ⟨pyInt ((dictGet base "fat").getD 0 * lo),
           pyInt ((dictGet base "fat").getD 0 * hi)⟩,
    fiber := ⟨25, 35⟩ }

/-- `st.session_state.daily_targets` as constructed at onboarding
(src/app.py lines 421-424): keys calories, protein, carbs, fat only. -/
def onboarding_daily_targets (tdee cal_adj weight protein_mult : ℚ) :
    List (String × ℚ) :=
  [("calories", (pyInt (qadd tdee cal_adj) : ℚ)),
   ("protein", (pyInt (qmul weight protein_mult) : ℚ)),
   ("carbs", (pyInt (qdiv (qmul (qadd tdee cal_adj) (Rat.divInt 45 100)) 4) : ℚ)),
   ("fat", (pyInt (qdiv (qmul (qadd tdee cal_adj) (Rat.divInt 25 100)) 9) : ℚ))]

/-- A food-log entry as used by the Food Log page's daily totals
(src/app.py lines 616-624): `calories`..`fat` are accessed directly,
`fiber` and `servings` through `.get` with defaults 0 and 1. -/
structure LogEntry where
  date : String
  calories : ℚ
  protein : ℚ
  carbs : ℚ
  fat : ℚ
  fiber : Option ℚ
  servings : Option ℚ
deriving DecidableEq

/-- `e.get('servings', 1)`. -/
def servingsOf (e : LogEntry) : ℚ := e.servings.getD 1

/-- `e.get('fiber', 0)`. -/
def fiberOf (e : LogEntry) : ℚ := e.fiber.getD 0

/-- `day_log = [e for e in food_log if e.get('date') == str(selected_date)]`. -/
def day_log (log : List LogEntry) (d : String) : List LogEntry :=
  log.filter (fun e => e.date == d)

/-- `total_cal = sum(float(e['calories']) * e.get('servings', 1) for e in day_log)`. -/
def total_calories (log : List LogEntry) (d : String) : ℚ :=
  qsum ((day_log log d).map (fun e => qmul e.calories (servingsOf e)))

/-- Daily protein total, same shape as `total_calories`. -/
def total_protein (log : List LogEntry) (d : String) : ℚ :=
  qsum ((day_log log d).map (fun e => qmul e.protein (servingsOf e)))

/-- Daily carbs total, same shape as `total_calories`. -/
def total_carbs (log : List LogEntry) (d : String) : ℚ :=
  qsum ((day_log log d).map (fun e => qmul e.carbs (servingsOf e)))

/-- Daily fat total, same shape as `total_calories`. -/
def total_fat (log : List LogEntry) (d : String) : ℚ :=
  qsum ((day_log log d).map (fun e => qmul e.fat (servingsOf e)))

/-- `total_fiber = sum(float(e.get('fiber', 0)) * e.get('servings', 1) ...)`. -/
def total_fiber (log : List LogEntry) (d : String) : ℚ :=
  qsum ((day_log log d).map (fun e => qmul (fiberOf e) (servingsOf e)))

/-- One entry of `FOOD_NUTRITION_DB`, and also the shape of the values the
Food Scanner page attaches to a detection. -/
structure Nutrition where
  calories : ℚ
  protein : ℚ
  carbs : ℚ
  fat : ℚ
  fiber : ℚ
  food_group : String
deriving DecidableEq

/-- `FOOD_NUTRITION_DB` (src/app.py lines 152-163). -/
def FOOD_NUTRITION_DB : List (String × Nutrition) := [
  ("broccoli", ⟨55, Rat.divInt 37 10, Rat.divInt 112 10, Rat.divInt 6 10,
               Rat.divInt 51 10, "Vegetables"⟩),
  ("carrot", ⟨41, Rat.divInt 9 10, Rat.divInt 96 10, Rat.divInt 2 10,
             Rat.divInt 28 10, "Vegetables"⟩),
  ("apple", ⟨95, Rat.divInt 5 10, Rat.divInt 251 10, Rat.divInt 3 10,
            Rat.divInt 44 10, "Fruits"⟩),
  ("orange", ⟨62, Rat.divInt 12 10, Rat.divInt 154 10, Rat.divInt 2 10,
             Rat.divInt 31 10, "Fruits"⟩),
  ("banana", ⟨105, Rat.divInt 13 10, 27, Rat.divInt 4 10,
             Rat.divInt 31 10, "Fruits"⟩),
  ("tomato", ⟨22, Rat.divInt 11 10, Rat.divInt 48 10, Rat.divInt 2 10,
             Rat.divInt 15 10, "Vegetables"⟩)]

/-- The generic fallback the scanner uses for a label absent from
`FOOD_NUTRITION_DB` (src/app.py lines 757-759). -/
def GENERIC_NUTRITION : Nutrition := ⟨50, 2, 10, 1, 2, "Other"⟩

/-- Scale every numeric field by the portion multiplier; `food_group`
passes through (src/app.py lines 776-784). -/
def scaleNutrition (n : Nutrition) (mult : ℚ) : Nutrition :=
  { n with calories := qmul n.calories mult, protein := qmul n.protein mult,
           carbs := qmul n.carbs mult, fat := qmul n.fat mult,
           fiber := qmul n.fiber mult }

/-- The Food Scanner page's detection-to-nutrition resolution
(src/app.py lines 754-784): `FOOD_NUTRITION_DB.get(food_name, generic)`
followed by per-field multiplication with the portion multiplier.  These
are the values stored in `items_to_add` (no rounding). -/
def resolve_detection (label : String) (mult : ℚ) : Nutrition :=
  scaleNutrition
    (((FOOD_NUTRITION_DB.find? (fun p => p.1 == label)).map (·.2)).getD GENERIC_NUTRITION)
    mult

/-- `concerning_phrases` (src/groq_agent.py lines 337-341). -/
def CONCERNING_PHRASES : List String :=
  ["not eating", "starving", "purge", "binge", "hate my body",
   "too fat", "disgusting", "fast for days", "laxative",
   "make myself throw up", "eating disorder"]

/-- The fixed support-resources reply returned on a concerning message
(src/groq_agent.py lines 346-354). -/
def SUPPORT_MESSAGE : String :=
  "I hear that you might be going through a difficult time with food and your body.\n\nYour wellbeing matters more than any nutrition goal.\n\n**UGA has free, confidential support available:**\n- UGA Counseling & Psychiatric Services (CAPS): (706) 542-2273\n- UGA Health Center Nutrition Services: (706) 542-8690\n\nWould you like me to help you find more resources, or is there something else I can support you with today?"

/-- `NutritionAgent.check_for_concerning_content` (src/groq_agent.py lines
336-356): lowercase the message and return the fixed support reply when any
concerning phrase occurs as a substring, else `None`. -/
def check_for_concerning_content (user_message : String) : Option String :=
  if CONCERNING_PHRASES.any (fun p => strContains (lowerS user_message) p) then
    some SUPPORT_MESSAGE
  else none

/-- The Ask-the-Agent page's response path (src/app.py lines 881-889):
`concern_msg = agent.check_for_concerning_content(user_input)`, and only
when it is falsy is `agent.get_response` (here the abstract `responder`,
covering both the LLM call and the rule-based fallback) consulted.  The
support message is a nonempty string, hence truthy. -/
def agent_reply (responder : String → String) (user_input : String) : String :=
  match check_for_concerning_content user_input with
  | some m => m
  | none => responder user_input

/-- A concrete raw menu row used in the concrete-input theorems. -/
def rowPizza1 : RawRow :=
  { location := some "Hall", category := some "Lunch", name := some "Pizza",
    servingSize := none, caloriesVal := some "100", totalFatVal := some "2g",
    totalCarbVal := some "30", proteinVal := some "10", dietaryFiberVal := none }

/-- The same dish with a trailing space in the name cell and different
calories: a distinct raw key that strips to the same catalog key. -/
def rowPizza2 : RawRow := { rowPizza1 with name := some "Pizza ", caloriesVal := some "999" }

/-- The catalog item `rowPizza1` loads to. -/
def itemPizza : MenuItem :=
  ⟨"Pizza", "Hall", "Lunch", 100, 10, 30, 2, 0, "1 serving", "Other"⟩

/-- A raw row whose calories cell holds a negative numeral. -/
def rowNegCal : RawRow :=
  { location := some "H", category := some "Entrees", name := some "Mystery Stew",
    servingSize := none, caloriesVal := some "-5", totalFatVal := none,
    totalCarbVal := none, proteinVal := none, dietaryFiberVal := none }

/-- The three-entry food log of the daily-aggregator example. -/
def exampleLog : List LogEntry :=
  [⟨"D1", 200, 0, 0, 0, none, some 1⟩,
   ⟨"D1", 100, 0, 0, 0, none, some 2⟩,
   ⟨"D2", 50, 0, 0, 0, none, some 1⟩]

/-- Base daily targets with calories 2000, as in the range-comparison example. -/
def baseExample : List (String × ℚ) :=
  [("calories", 2000), ("protein", 150), ("carbs", 250), ("fat", 65)]

/-! ## Bridge lemmas: the kernel-evaluable operations agree with the
ordinary `ℚ` operations. -/

theorem qmul_eq_mul (a b : ℚ) : qmul a b = a * b := by
  rw [qmul]
  conv_rhs => rw [← Rat.num_divInt_den a, ← Rat.num_divInt_den b]
  rw [Rat.divInt_mul_divInt _ _ (by exact_mod_cast a.den_nz) (by exact_mod_cast b.den_nz)]

theorem qadd_eq_add (a b : ℚ) : qadd a b = a + b := by
  rw [qadd]
  conv_rhs => rw [← Rat.num_divInt_den a, ← Rat.num_divInt_den b]
  rw [Rat.divInt_add_divInt _ _ (by exact_mod_cast a.den_nz) (by exact_mod_cast b.den_nz)]

theorem qdiv_eq_div (a b : ℚ) : qdiv a b = a / b := (Rat.div_def' a b).symm

theorem qsum_eq_sum (l : List ℚ) : qsum l = l.sum := by
  induction l with
  | nil => rfl
  | cons x xs ih => rw [qsum, qadd_eq_add, ih, List.sum_cons]

/-! ## Helper lemmas on deduplication -/

theorem dropDupAux_sublist (l : List RawRow) :
    ∀ seen, List.Sublist (dropDupAux seen l) l := by
  induction l with
  | nil => intro seen; simp [dropDupAux]
  | cons r rs ih =>
    intro seen
    rw [dropDupAux]
    by_cases h : rawKey r ∈ seen
    · rw [if_pos h]; exact (ih seen).cons r
    · rw [if_neg h]; exact (ih _).cons₂ r

theorem rawKey_not_seen_of_mem_dropDupAux {b : RawRow} (l : List RawRow) :
    ∀ seen, b ∈ dropDupAux seen l → rawKey b ∉ seen := by
  induction l with
  | nil => intro seen h; simp [dropDupAux] at h
  | cons r rs ih =>
    intro seen h
    rw [dropDupAux] at h
    by_cases hr : rawKey r ∈ seen
    · rw [if_pos hr] at h; exact ih seen h
    · rw [if_neg hr] at h
      rcases List.mem_cons.mp h with rfl | h'
      · exact hr
      · intro hk
        exact (ih _ h') (List.mem_cons_of_mem _ hk)

theorem dropDupAux_pairwise (l : List RawRow) :
    ∀ seen, (dropDupAux seen l).Pairwise (fun a b => rawKey a ≠ rawKey b) := by
  induction l with
  | nil => intro seen; simp [dropDupAux]
  | cons r rs ih =>
    intro seen
    rw [dropDupAux]
    by_cases hr : rawKey r ∈ seen
    · rw [if_pos hr]; exact ih seen
    · rw [if_neg hr]
      refine List.Pairwise.cons (fun b hb => ?_) (ih _)
      have hmem := rawKey_not_seen_of_mem_dropDupAux rs _ hb
      intro he
      exact hmem (he ▸ List.mem_cons_self _ _)

theorem dropDupAux_find? (k : Option String × Option String × Option String)
    (l : List RawRow) :
    ∀ seen, k ∉ seen →
      (dropDupAux seen l).find? (fun r => rawKey r == k) =
        l.find? (fun r => rawKey r == k) := by
  induction l with
  | nil => intro seen _; rfl
  | cons r rs ih =>
    intro seen hk
    rw [dropDupAux]
    by_cases hr : rawKey r ∈ seen
    · rw [if_pos hr]
      have hne : ¬((rawKey r == k) = true) := by
        simp only [beq_iff_eq]
        intro he; exact hk (he ▸ hr)
      rw [List.find?_cons_of_neg (p := fun r => rawKey r == k) _ hne]
      exact ih seen hk
    · rw [if_neg hr]
      by_cases hq : rawKey r = k
      · have hpos : (rawKey r == k) = true := beq_iff_eq.mpr hq
        rw [List.find?_cons_of_pos (p := fun r => rawKey r == k) _ hpos,
          List.find?_cons_of_pos (p := fun r => rawKey r == k) _ hpos]
      · have hne : ¬((rawKey r == k) = true) := by
          simp only [beq_iff_eq]; exact hq
        rw [List.find?_cons_of_neg (p := fun r => rawKey r == k) _ hne,
          List.find?_cons_of_neg (p := fun r => rawKey r == k) _ hne]
        refine ih _ (fun h => ?_)
        rcases List.mem_cons.mp h with h1 | h2
        · exact hq h1.symm
        · exact hk h2

theorem mem_of_mem_load_menu_rows {it : MenuItem} {rows : List RawRow}
    (h : it ∈ load_menu_rows rows) : ∃ r, r ∈ rows ∧ rowToItem r = some it := by
  rw [load_menu_rows] at h
  rcases List.mem_filterMap.mp h with ⟨r, hr, hR⟩
  exact ⟨r, (dropDupAux_sublist rows []).subset hr, hR⟩

theorem rowToItem_fields {r : RawRow} {it : MenuItem} (h : rowToItem r = some it) :
    it.calories = parse_nutrition_value r.caloriesVal ∧
    it.protein = parse_nutrition_value r.proteinVal ∧
    it.carbs = parse_nutrition_value r.totalCarbVal ∧
    it.fat = parse_nutrition_value r.totalFatVal ∧
    it.fiber = parse_nutrition_value r.dietaryFiberVal := by
  rw [rowToItem] at h
  match hn : r.name with
  | none => rw [hn] at h; cases h
  | some n =>
    rw [hn] at h
    dsimp only at h
    by_cases hb : pyStrip n = ""
    · rw [if_pos hb] at h; cases h
    · rw [if_neg hb] at h
      injection h with h
      subst h
      exact ⟨rfl, rfl, rfl, rfl, rfl⟩

/-! ## Helper lemmas on the classifier fold -/

theorem classifyFold_of_all_le (text : String) :
    ∀ (l : List (String × List String)) (best : String × Nat),
      (∀ q ∈ l, groupScore text q.2 ≤ best.2) → classifyFold text l best = best := by
  intro l
  induction l with
  | nil => intro best _; rfl
  | cons g rest ih =>
    intro best hle
    rw [classifyFold]
    rw [if_neg (Nat.not_lt.mpr (hle g (List.mem_cons_self _ _)))]
    exact ih best (fun q hq => hle q (List.mem_cons_of_mem _ hq))

theorem classifyFold_first_max (text : String) :
    ∀ (pre : List (String × List String)) (g : String) (kws : List String)
      (post : List (String × List String)) (best : String × Nat),
      best.2 < groupScore text kws →
      (∀ q ∈ pre, groupScore text q.2 < groupScore text kws) →
      (∀ q ∈ post, groupScore text q.2 ≤ groupScore text kws) →
      classifyFold text (pre ++ (g, kws) :: post) best = (g, groupScore text kws) := by
  intro pre
  induction pre with
  | nil =>
    intro g kws post best hbest _ hpost
    rw [List.nil_append, classifyFold, if_pos hbest]
    exact classifyFold_of_all_le text post _ (fun q hq => hpost q hq)
  | cons p pre' ih =>
    intro g kws post best hbest hpre hpost
    rw [List.cons_append, classifyFold]
    have hp : groupScore text p.2 < groupScore text kws :=
      hpre p (List.mem_cons_self _ _)
    have hbest' :
        (if best.2 < groupScore text p.2 then (p.1, groupScore text p.2) else best).2 <
          groupScore text kws := by
      by_cases hc : best.2 < groupScore text p.2
      · rw [if_pos hc]; exact hp
      · rw [if_neg hc]; exact hbest
    exact ih g kws post _ hbest'
      (fun q hq => hpre q (List.mem_cons_of_mem _ hq)) hpost

/-! ## Helper lemma on daily totals -/

theorem qsum_day_log (f : LogEntry → ℚ) (d : String) :
    ∀ log : List LogEntry,
      qsum ((day_log log d).map f) =
        (log.map (fun e => if e.date = d then f e else 0)).sum := by
  intro log
  rw [qsum_eq_sum]
  induction log with
  | nil => rfl
  | cons e rest ih =>
    rw [day_log] at ih ⊢
    by_cases he : e.date = d
    · rw [List.filter_cons_of_pos (by simpa using he), List.map_cons,
        List.sum_cons, ih, List.map_cons, List.sum_cons, if_pos he]
    · rw [List.filter_cons_of_neg (by simpa using he), ih, List.map_cons,
        List.sum_cons, if_neg he, zero_add]

theorem pyInt_zero : pyInt 0 = 0 := by decide

theorem parse_some (v : String) :
    parse_nutrition_value (some v) =
      if v = "" then 0 else (pyFloat (stripOneSuffix (pyStrip v))).getD 0 := rfl

/-! ## Claim theorems -/

/-- C1 counterexample: two raw rows whose name cells differ only by a
trailing space carry distinct raw keys, so both survive deduplication, yet
after stripping they produce two catalog items with the identical
(name, hall, meal_period) key — the claim's uniqueness invariant fails on
the loaded catalog. -/
theorem c1_counterexample_stripped_key_collision :
    (load_menu_rows [rowPizza1, rowPizza2]).map (fun it => (it.name, it.hall, it.meal)) =
      [("Pizza", "Hall", "Lunch"), ("Pizza", "Hall", "Lunch")] := by decide

/-- C1 (amended): deduplication keys on the raw (pre-strip) cell triple
(name, hall, meal_period).  The surviving rows have pairwise distinct raw
keys, appear in input order (a sublist of the input), and for every raw
key the survivor is the first matching row of the input; every catalog
item comes from a surviving input row.  Because rows differing only in
surrounding whitespace count as distinct raw keys, the stripped keys of
catalog items may still collide (see the counterexample). -/
theorem c1_dedup_first_seen_raw_key (rows : List RawRow) :
    (dropDuplicates rows).Pairwise (fun a b => rawKey a ≠ rawKey b) ∧
    List.Sublist (dropDuplicates rows) rows ∧
    (∀ k, (dropDuplicates rows).find? (fun r => rawKey r == k) =
      rows.find? (fun r => rawKey r == k)) ∧
    load_menu_rows rows = (dropDuplicates rows).filterMap rowToItem ∧
    (∀ it ∈ load_menu_rows rows, ∃ r, r ∈ rows ∧ rowToItem r = some it) :=
  ⟨dropDupAux_pairwise rows [], dropDupAux_sublist rows [],
   fun k => dropDupAux_find? k rows [] (List.not_mem_nil k),
   rfl,
   fun _ h => mem_of_mem_load_menu_rows h⟩

/-- Witness for C1: at the concrete two-row input, the first surviving row
loads to the concrete item `itemPizza`, exhibited by applying the theorem
at that input. -/
theorem c1_dedup_first_seen_raw_key_witness :
    ∃ r, r ∈ [rowPizza1, rowPizza2] ∧ rowToItem r = some itemPizza :=
  (c1_dedup_first_seen_raw_key [rowPizza1, rowPizza2]).2.2.2.2 itemPizza (by decide)

/-- C8 counterexample: when the menu file exists but reading it raises
(`pd.read_csv` is unguarded), the exception escapes the loader boundary
instead of being converted into an empty catalog with a signal. -/
theorem c8_counterexample_unreadable_source_raises :
    load_menu_from_csv true (CsvRead.ioError "PermissionError") =
      Except.error "PermissionError" := rfl

/-- C8 (amended): only an absent menu source is recovered at the loader
boundary — it yields an empty catalog plus the "Menu CSV not found."
warning and no exception; a present-but-unreadable source propagates the
read exception past the boundary, and a readable source yields the loaded
catalog with no warning. -/
theorem c8_loader_boundary :
    (∀ read, load_menu_from_csv false read =
      Except.ok (["Menu CSV not found."], [])) ∧
    (∀ e, load_menu_from_csv true (CsvRead.ioError e) = Except.error e) ∧
    (∀ rows, load_menu_from_csv true (CsvRead.ok rows) =
      Except.ok ([], load_menu_rows rows)) :=
  ⟨fun _ => rfl, fun _ => rfl, fun _ => rfl⟩

/-- C9: when the lowercased message contains any concerning phrase the
reply is the fixed support message, independent of the responder (so both
the LLM call and the rule-based fallback are bypassed); otherwise the
check returns none and the normal response path runs. -/
theorem c9_concerning_content_gate :
    (∀ (msg : String) (responder : String → String),
      (CONCERNING_PHRASES.any fun p => strContains (lowerS msg) p) = true →
      check_for_concerning_content msg = some SUPPORT_MESSAGE ∧
      agent_reply responder msg = SUPPORT_MESSAGE) ∧
    (∀ (msg : String) (r₁ r₂ : String → String),
      (CONCERNING_PHRASES.any fun p => strContains (lowerS msg) p) = true →
      agent_reply r₁ msg = agent_reply r₂ msg) ∧
    (∀ (msg : String) (responder : String → String),
      (CONCERNING_PHRASES.any fun p => strContains (lowerS msg) p) = false →
      check_for_concerning_content msg = none ∧
      agent_reply responder msg = responder msg) := by
  refine ⟨fun msg responder h => ?_, fun msg r₁ r₂ h => ?_, fun msg responder h => ?_⟩
  · have hc : check_for_concerning_content msg = some SUPPORT_MESSAGE := by
      rw [check_for_concerning_content, if_pos h]
    exact ⟨hc, by rw [agent_reply, hc]⟩
  · have hc : check_for_concerning_content msg = some SUPPORT_MESSAGE := by
      rw [check_for_concerning_content, if_pos h]
    rw [agent_reply, agent_reply, hc]
  · have hc : check_for_concerning_content msg = none := by
      rw [check_for_concerning_content, if_neg (by simp [h])]
    exact ⟨hc, by rw [agent_reply, hc]⟩

/-- Witness for C9: a message containing "starving" (case-insensitively)
gets the support reply; a benign message passes through to the responder. -/
theorem c9_concerning_content_gate_witness :
    (check_for_concerning_content "I am STARVING and hate my body" = some SUPPORT_MESSAGE ∧
      agent_reply (fun m => m) "I am STARVING and hate my body" = SUPPORT_MESSAGE) ∧
    (check_for_concerning_content "what should I eat before practice" = none ∧
      agent_reply (fun m => m) "what should I eat before practice" =
        "what should I eat before practice") :=
  ⟨c9_concerning_content_gate.1 _ _ (by decide),
   c9_concerning_content_gate.2.2 _ _ (by decide)⟩

/-- C10: the target-range function is total over day types and base dicts:
any day type other than "Rest Day" and "Active Rest Day" gets the training
multipliers; a base key that is absent yields the range (0, 0); the fiber
range is always (25, 35); and the onboarding targets carry no fiber key. -/
theorem c10_target_range_total :
    (∀ base day, day ≠ "Rest Day" → day ≠ "Active Rest Day" →
      get_target_range base day = get_target_range base "Training Day") ∧
    (∀ base day, dictGet base "calories" = none →
      (get_target_range base day).calories = ⟨0, 0⟩) ∧
    (∀ base day, dictGet base "protein" = none →
      (get_target_range base day).protein = ⟨0, 0⟩) ∧
    (∀ base day, dictGet base "carbs" = none →
      (get_target_range base day).carbs = ⟨0, 0⟩) ∧
    (∀ base day, dictGet base "fat" = none →
      (get_target_range base day).fat = ⟨0, 0⟩) ∧
    (∀ base day, (get_target_range base day).fiber = ⟨25, 35⟩) ∧
    (∀ tdee cal_adj weight protein_mult,
      dictGet (onboarding_daily_targets tdee cal_adj weight protein_mult) "fiber" =
        none) := by
  refine ⟨fun base day h1 h2 => ?_, fun base day h => ?_, fun base day h => ?_,
    fun base day h => ?_, fun base day h => ?_, fun base day => rfl,
    fun tdee cal_adj weight protein_mult => rfl⟩
  · simp [get_target_range, h1, h2]
  all_goals simp [get_target_range, h, qmul_eq_mul, pyInt_zero]

/-- Witness for C10: an unknown day type equals the training ranges, and a
missing calories key yields the (0, 0) range. -/
theorem c10_target_range_total_witness :
    get_target_range baseExample "Game Day" =
      get_target_range baseExample "Training Day" ∧
    (get_target_range [] "Game Day").calories = ⟨0, 0⟩ :=
  ⟨c10_target_range_total.1 baseExample "Game Day" (by decide) (by decide),
   c10_target_range_total.2.1 [] "Game Day" rfl⟩

/-- C4: daily totals are the sums of entry macro times servings over
exactly the entries whose date equals the query date (an absent entry
contributes 0 to the indicator sum); a missing servings field defaults to
1 and a missing fiber field to 0; and on the three-entry example the
calories total for D1 is 400 and for D2 is 50. -/
theorem c4_daily_totals_linear :
    (total_calories exampleLog "D1" = 400 ∧ total_calories exampleLog "D2" = 50) ∧
    (∀ log d, total_calories log d =
      (log.map (fun e => if e.date = d then e.calories * servingsOf e else 0)).sum) ∧
    (∀ log d, total_protein log d =
      (log.map (fun e => if e.date = d then e.protein * servingsOf e else 0)).sum) ∧
    (∀ log d, total_carbs log d =
      (log.map (fun e => if e.date = d then e.carbs * servingsOf e else 0)).sum) ∧
    (∀ log d, total_fat log d =
      (log.map (fun e => if e.date = d then e.fat * servingsOf e else 0)).sum) ∧
    (∀ log d, total_fiber log d =
      (log.map (fun e => if e.date = d then fiberOf e * servingsOf e else 0)).sum) ∧
    (∀ e : LogEntry, e.servings = none → servingsOf e = 1) ∧
    (∀ e : LogEntry, e.fiber = none → fiberOf e = 0) := by
  refine ⟨⟨by decide, by decide⟩, fun log d => ?_, fun log d => ?_, fun log d => ?_,
    fun log d => ?_, fun log d => ?_, fun e h => by rw [servingsOf, h]; rfl,
    fun e h => by rw [fiberOf, h]; rfl⟩
  · rw [total_calories, qsum_day_log]; simp only [qmul_eq_mul]
  · rw [total_protein, qsum_day_log]; simp only [qmul_eq_mul]
  · rw [total_carbs, qsum_day_log]; simp only [qmul_eq_mul]
  · rw [total_fat, qsum_day_log]; simp only [qmul_eq_mul]
  · rw [total_fiber, qsum_day_log]; simp only [qmul_eq_mul]

/-- Witness for C4: a concrete entry with both optional fields missing gets
servings 1 and fiber 0, by applying the theorem's default conjuncts. -/
theorem c4_daily_totals_linear_witness :
    servingsOf ⟨"D1", 1, 0, 0, 0, none, none⟩ = 1 ∧
    fiberOf ⟨"D1", 1, 0, 0, 0, none, none⟩ = 0 :=
  ⟨c4_daily_totals_linear.2.2.2.2.2.2.1 _ rfl,
   c4_daily_totals_linear.2.2.2.2.2.2.2 _ rfl⟩

/-- C5 counterexample: the resolver stores 55 * 0.5 = 27.5 calories for
broccoli at multiplier 0.5, while Python round(55*0.5) is 28 (half to
even), so the claim's `resolve("broccoli", 0.5).calories == round(55*0.5)`
fails on the stored values. -/
theorem c5_counterexample_resolver_does_not_round :
    (resolve_detection "broccoli" (1/2)).calories = 55/2 ∧
    pyRound (55 * (1/2 : ℚ)) = 28 ∧
    (resolve_detection "broccoli" (1/2)).calories ≠
      ((pyRound (55 * (1/2 : ℚ)) : ℤ) : ℚ) := by
  have h12 : (1/2 : ℚ) = Rat.divInt 1 2 := by rw [Rat.divInt_eq_div]; norm_num
  have h55 : (55 * (1/2 : ℚ)) = Rat.divInt 55 2 := by rw [Rat.divInt_eq_div]; norm_num
  have h552 : (55/2 : ℚ) = Rat.divInt 55 2 := by rw [Rat.divInt_eq_div]; norm_num
  refine ⟨?_, ?_, ?_⟩
  · rw [h12, h552]; decide
  · rw [h55]; decide
  · rw [h55, h12]; decide

/-- C5 (amended): the resolver multiplies every numeric field of the base
entry by the portion multiplier, with no rounding, and food_group passes
through unscaled; a label found in `FOOD_NUTRITION_DB` resolves from its
table entry (broccoli: calories 55 * mult), and an absent label resolves
from the fixed generic estimate (50, 2, 10, 1, 2, "Other") scaled by
nothing but the multiplier. -/
theorem c5_resolver_scales_per_unit_entry :
    (∀ n mult, scaleNutrition n mult =
      ⟨n.calories * mult, n.protein * mult, n.carbs * mult, n.fat * mult,
       n.fiber * mult, n.food_group⟩) ∧
    (∀ mult : ℚ, resolve_detection "broccoli" mult =
      ⟨55 * mult, 3.7 * mult, 11.2 * mult, 0.6 * mult, 5.1 * mult, "Vegetables"⟩) ∧
    (∀ label (mult : ℚ),
      FOOD_NUTRITION_DB.find? (fun p => p.1 == label) = none →
      resolve_detection label mult =
        ⟨50 * mult, 2 * mult, 10 * mult, 1 * mult, 2 * mult, "Other"⟩) ∧
    (∀ label (mult : ℚ),
      (resolve_detection label mult).food_group =
        (resolve_detection label 1).food_group) := by
  have hsc : ∀ n mult, scaleNutrition n mult =
      ⟨n.calories * mult, n.protein * mult, n.carbs * mult, n.fat * mult,
       n.fiber * mult, n.food_group⟩ := by
    intro n mult
    rw [scaleNutrition]
    simp only [qmul_eq_mul]
  refine ⟨hsc, fun mult => ?_, fun label mult h => ?_, fun label mult => rfl⟩
  · have hdb : ((FOOD_NUTRITION_DB.find? (fun p => p.1 == "broccoli")).map (·.2)).getD
        GENERIC_NUTRITION =
        ⟨55, Rat.divInt 37 10, Rat.divInt 112 10, Rat.divInt 6 10,
         Rat.divInt 51 10, "Vegetables"⟩ := by decide
    rw [resolve_detection, hdb, hsc]
    have h37 : (Rat.divInt 37 10 : ℚ) = 3.7 := by rw [Rat.divInt_eq_div]; norm_num
    have h112 : (Rat.divInt 112 10 : ℚ) = 11.2 := by rw [Rat.divInt_eq_div]; norm_num
    have h6 : (Rat.divInt 6 10 : ℚ) = 0.6 := by rw [Rat.divInt_eq_div]; norm_num
    have h51 : (Rat.divInt 51 10 : ℚ) = 5.1 := by rw [Rat.divInt_eq_div]; norm_num
    rw [h37, h112, h6, h51]
  · rw [resolve_detection, h]
    rw [hsc]
    rfl

/-- Witness for C5: the unknown label "unknown_blob" at multiplier 1
resolves to the generic estimate, by applying the theorem with the
table-miss hypothesis discharged by evaluation. -/
theorem c5_resolver_scales_per_unit_entry_witness :
    resolve_detection "unknown_blob" 1 =
      ⟨50 * 1, 2 * 1, 10 * 1, 1 * 1, 2 * 1, "Other"⟩ :=
  c5_resolver_scales_per_unit_entry.2.2.1 "unknown_blob" 1 (by decide)

/-- C6: for base calories 2000 on a Rest Day the calories range is exactly
(1700, 1900); in general the three day types apply the multiplier pairs
0.85-0.95, 0.95-1.05 and 1.0-1.15 to every base macro target with each
product truncated to an integer, and the fiber range is the fixed band
(25, 35) for every day type. -/
theorem c6_target_range_multipliers :
    (get_target_range baseExample "Rest Day").calories = ⟨1700, 1900⟩ ∧
    (∀ base, get_target_range base "Rest Day" =
      specRanges base (85/100) (95/100)) ∧
    (∀ base, get_target_range base "Active Rest Day" =
      specRanges base (95/100) (105/100)) ∧
    (∀ base, get_target_range base "Training Day" =
      specRanges base 1 (115/100)) ∧
    (∀ base day, (get_target_range base day).fiber = ⟨25, 35⟩) := by
  have h85 : (Rat.divInt 85 100 : ℚ) = 85/100 := by rw [Rat.divInt_eq_div]; norm_num
  have h95 : (Rat.divInt 95 100 : ℚ) = 95/100 := by rw [Rat.divInt_eq_div]; norm_num
  have h105 : (Rat.divInt 105 100 : ℚ) = 105/100 := by rw [Rat.divInt_eq_div]; norm_num
  have h115 : (Rat.divInt 115 100 : ℚ) = 115/100 := by rw [Rat.divInt_eq_div]; norm_num
  refine ⟨by decide, fun base => ?_, fun base => ?_, fun base => ?_,
    fun base day => rfl⟩
  · simp [get_target_range, specRanges, qmul_eq_mul, h85, h95]
  · simp [get_target_range, specRanges, qmul_eq_mul, h95, h105]
  · simp [get_target_range, specRanges, qmul_eq_mul, h115]

theorem stripOneSuffix_kcal {s : String}
    (h : endsWithS (lowerS s) "kcal" = true) :
    stripOneSuffix s = pyStrip (dropRightS s 4) := by
  rw [stripOneSuffix, UNIT_SUFFIXES,
    List.find?_cons_of_pos (p := fun suf => endsWithS (lowerS s) suf) _ h]
  rfl

theorem stripOneSuffix_cal {s : String}
    (h1 : endsWithS (lowerS s) "kcal" = false)
    (h : endsWithS (lowerS s) "cal" = true) :
    stripOneSuffix s = pyStrip (dropRightS s 3) := by
  rw [stripOneSuffix, UNIT_SUFFIXES,
    List.find?_cons_of_neg (p := fun suf => endsWithS (lowerS s) suf) _ (by simp [h1]),
    List.find?_cons_of_pos (p := fun suf => endsWithS (lowerS s) suf) _ h]
  rfl

theorem stripOneSuffix_mg {s : String}
    (h1 : endsWithS (lowerS s) "kcal" = false)
    (h2 : endsWithS (lowerS s) "cal" = false)
    (h : endsWithS (lowerS s) "mg" = true) :
    stripOneSuffix s = pyStrip (dropRightS s 2) := by
  rw [stripOneSuffix, UNIT_SUFFIXES,
    List.find?_cons_of_neg (p := fun suf => endsWithS (lowerS s) suf) _ (by simp [h1]),
    List.find?_cons_of_neg (p := fun suf => endsWithS (lowerS s) suf) _ (by simp [h2]),
    List.find?_cons_of_pos (p := fun suf => endsWithS (lowerS s) suf) _ h]
  rfl

theorem stripOneSuffix_g {s : String}
    (h1 : endsWithS (lowerS s) "kcal" = false)
    (h2 : endsWithS (lowerS s) "cal" = false)
    (h3 : endsWithS (lowerS s) "mg" = false)
    (h : endsWithS (lowerS s) "g" = true) :
    stripOneSuffix s = pyStrip (dropRightS s 1) := by
  rw [stripOneSuffix, UNIT_SUFFIXES,
    List.find?_cons_of_neg (p := fun suf => endsWithS (lowerS s) suf) _ (by simp [h1]),
    List.find?_cons_of_neg (p := fun suf => endsWithS (lowerS s) suf) _ (by simp [h2]),
    List.find?_cons_of_neg (p := fun suf => endsWithS (lowerS s) suf) _ (by simp [h3]),
    List.find?_cons_of_pos (p := fun suf => endsWithS (lowerS s) suf) _ h]
  rfl

theorem stripOneSuffix_id {s : String}
    (h : ∀ suf ∈ UNIT_SUFFIXES, endsWithS (lowerS s) suf = false) :
    stripOneSuffix s = s := by
  have hf : UNIT_SUFFIXES.find? (fun suf => endsWithS (lowerS s) suf) = none :=
    List.find?_eq_none.mpr (fun x hx => by rw [h x hx]; exact Bool.false_ne_true)
  rw [stripOneSuffix, hf]

/-- C2: the nutrition value parser is total (the float conversion's failure
is caught): missing/None input yields 0, empty input yields 0, blank input
yields 0; the spec's examples hold; a trailing unit suffix is stripped at
most once, checking the candidates in the order kcal, cal, mg, g so that
the longest match wins; a string ending in none of the suffixes is passed
to the float conversion unchanged (after stripping); and an unparseable
remainder yields 0. -/
theorem c2_parse_nutrition_value :
    parse_nutrition_value none = 0 ∧
    parse_nutrition_value (some "") = 0 ∧
    parse_nutrition_value (some "   ") = 0 ∧
    parse_nutrition_value (some "7.6g") = 7.6 ∧
    parse_nutrition_value (some "150") = 150 ∧
    parse_nutrition_value (some "3.2kcal") = 3.2 ∧
    parse_nutrition_value (some "abc") = 0 ∧
    (∀ s : String, endsWithS (lowerS (pyStrip s)) "kcal" = true →
      parse_nutrition_value (some s) =
        (pyFloat (pyStrip (dropRightS (pyStrip s) 4))).getD 0) ∧
    (∀ s : String, endsWithS (lowerS (pyStrip s)) "kcal" = false →
      endsWithS (lowerS (pyStrip s)) "cal" = true →
      parse_nutrition_value (some s) =
        (pyFloat (pyStrip (dropRightS (pyStrip s) 3))).getD 0) ∧
    (∀ s : String, endsWithS (lowerS (pyStrip s)) "kcal" = false →
      endsWithS (lowerS (pyStrip s)) "cal" = false →
      endsWithS (lowerS (pyStrip s)) "mg" = true →
      parse_nutrition_value (some s) =
        (pyFloat (pyStrip (dropRightS (pyStrip s) 2))).getD 0) ∧
    (∀ s : String, endsWithS (lowerS (pyStrip s)) "kcal" = false →
      endsWithS (lowerS (pyStrip s)) "cal" = false →
      endsWithS (lowerS (pyStrip s)) "mg" = false →
      endsWithS (lowerS (pyStrip s)) "g" = true →
      parse_nutrition_value (some s) =
        (pyFloat (pyStrip (dropRightS (pyStrip s) 1))).getD 0) ∧
    (∀ s : String, (∀ suf ∈ UNIT_SUFFIXES, endsWithS (lowerS (pyStrip s)) suf = false) →
      parse_nutrition_value (some s) = (pyFloat (pyStrip s)).getD 0) ∧
    (∀ s : String, pyFloat (stripOneSuffix (pyStrip s)) = none →
      parse_nutrition_value (some s) = 0) := by
  have h76 : parse_nutrition_value (some "7.6g") = Rat.divInt 38 5 := by decide
  have hb76 : (Rat.divInt 38 5 : ℚ) = 7.6 := by rw [Rat.divInt_eq_div]; norm_num
  have h32 : parse_nutrition_value (some "3.2kcal") = Rat.divInt 16 5 := by decide
  have hb32 : (Rat.divInt 16 5 : ℚ) = 3.2 := by rw [Rat.divInt_eq_div]; norm_num
  refine ⟨rfl, by decide, by decide, by rw [h76, hb76], by decide, by rw [h32, hb32],
    by decide, fun s h => ?_, fun s h1 h => ?_, fun s h1 h2 h => ?_,
    fun s h1 h2 h3 h => ?_, fun s h => ?_, fun s h => ?_⟩
  · by_cases he : s = ""
    · subst he; exact absurd h (by decide)
    · rw [parse_some, if_neg he, stripOneSuffix_kcal h]
  · by_cases he : s = ""
    · subst he; exact absurd h (by decide)
    · rw [parse_some, if_neg he, stripOneSuffix_cal h1 h]
  · by_cases he : s = ""
    · subst he; exact absurd h (by decide)
    · rw [parse_some, if_neg he, stripOneSuffix_mg h1 h2 h]
  · by_cases he : s = ""
    · subst he; exact absurd h (by decide)
    · rw [parse_some, if_neg he, stripOneSuffix_g h1 h2 h3 h]
  · by_cases he : s = ""
    · subst he; decide
    · rw [parse_some, if_neg he, stripOneSuffix_id h]
  · rw [parse_some]
    by_cases he : s = ""
    · rw [if_pos he]
    · rw [if_neg he, h]; rfl

/-- Witness for C2: the kcal rule applied at "3.2kcal" (stripping the
four-character suffix, not "cal") and the no-suffix rule at "150". -/
theorem c2_parse_nutrition_value_witness :
    parse_nutrition_value (some "3.2kcal") =
      (pyFloat (pyStrip (dropRightS (pyStrip "3.2kcal") 4))).getD 0 ∧
    parse_nutrition_value (some "150") = (pyFloat (pyStrip "150")).getD 0 :=
  ⟨c2_parse_nutrition_value.2.2.2.2.2.2.2.1 "3.2kcal" (by decide),
   c2_parse_nutrition_value.2.2.2.2.2.2.2.2.2.2.2.1 "150" (by decide)⟩

/-- C3: the classifier scores each group by the number of its keywords
occurring in the lowercased "name category" text; a group whose score is
the strictly greatest among the groups before it and at least the scores
after it (in the fixed table order Protein, Grains, Vegetables, Fruits,
Dairy, Fats & Oils, Sweets & Desserts, Beverages) wins, so ties keep the
first-evaluated group; if every group scores 0 the result is "Other"; and
the spec's three examples hold. -/
theorem c3_classify_first_strict_max :
    _classify_food_group "Entrees" "Grilled Chicken Breast" = "Protein" ∧
    _classify_food_group "" "Apple Slices" = "Fruits" ∧
    _classify_food_group "" "xyzzy" = "Other" ∧
    (∀ category name : String,
      (∀ q ∈ FOOD_GROUP_KEYWORDS,
        groupScore (lowerS (name ++ " " ++ category)) q.2 = 0) →
      _classify_food_group category name = "Other") ∧
    (∀ (category name : String) (pre post : List (String × List String))
      (g : String) (kws : List String),
      FOOD_GROUP_KEYWORDS = pre ++ (g, kws) :: post →
      0 < groupScore (lowerS (name ++ " " ++ category)) kws →
      (∀ q ∈ pre, groupScore (lowerS (name ++ " " ++ category)) q.2 <
        groupScore (lowerS (name ++ " " ++ category)) kws) →
      (∀ q ∈ post, groupScore (lowerS (name ++ " " ++ category)) q.2 ≤
        groupScore (lowerS (name ++ " " ++ category)) kws) →
      _classify_food_group category name = g) := by
  refine ⟨by decide, by decide, by decide, fun category name h => ?_,
    fun category name pre post g kws heq hpos hpre hpost => ?_⟩
  · rw [_classify_food_group,
      classifyFold_of_all_le _ _ _ (fun q hq => by simp [h q hq])]
  · rw [_classify_food_group, heq,
      classifyFold_first_max _ pre g kws post _ hpos hpre hpost]

/-- Witness for C3: the all-zero rule applied at ("", "xyzzy") and the
first-strict-max rule applied at ("Entrees", "Grilled Chicken Breast")
with the Protein group first in the table. -/
theorem c3_classify_first_strict_max_witness :
    _classify_food_group "" "xyzzy" = "Other" ∧
    _classify_food_group "Entrees" "Grilled Chicken Breast" = "Protein" :=
  ⟨c3_classify_first_strict_max.2.2.2.1 "" "xyzzy" (by decide),
   c3_classify_first_strict_max.2.2.2.2 "Entrees" "Grilled Chicken Breast"
     [] FOOD_GROUP_KEYWORDS.tail "Protein" (FOOD_GROUP_KEYWORDS.headD ("", [])).2
     (by decide) (by decide) (by decide) (by decide)⟩

/-- C7 counterexample: a raw row whose calories cell is "-5" loads to a
catalog item with calories -5, so the invariant "no loaded catalog item
ever carries a negative macro value, for any possible source cell
contents" fails — the parser passes negative numerals through unclamped. -/
theorem c7_counterexample_negative_calories :
    (load_menu_rows [rowNegCal]).map MenuItem.calories = [-5] ∧
    ¬(∀ it ∈ load_menu_rows [rowNegCal], 0 ≤ it.calories) := by
  constructor
  · decide
  · decide

/-- C7 (amended): each macro of a loaded item equals
`parse_nutrition_value` of the corresponding source cell; missing cells
parse to 0 and unparseable remainders parse to 0; consequently all macros
of all loaded items are non-negative provided every source cell parses to
a non-negative value (which a negative numeral such as "-5" violates). -/
theorem c7_macros_from_parse (rows : List RawRow) :
    (∀ it ∈ load_menu_rows rows, ∃ r, r ∈ rows ∧
      it.calories = parse_nutrition_value r.caloriesVal ∧
      it.protein = parse_nutrition_value r.proteinVal ∧
      it.carbs = parse_nutrition_value r.totalCarbVal ∧
      it.fat = parse_nutrition_value r.totalFatVal ∧
      it.fiber = parse_nutrition_value r.dietaryFiberVal) ∧
    ((∀ r ∈ rows, 0 ≤ parse_nutrition_value r.caloriesVal ∧
        0 ≤ parse_nutrition_value r.proteinVal ∧
        0 ≤ parse_nutrition_value r.totalCarbVal ∧
        0 ≤ parse_nutrition_value r.totalFatVal ∧
        0 ≤ parse_nutrition_value r.dietaryFiberVal) →
      ∀ it ∈ load_menu_rows rows,
        0 ≤ it.calories ∧ 0 ≤ it.protein ∧ 0 ≤ it.carbs ∧
        0 ≤ it.fat ∧ 0 ≤ it.fiber) ∧
    parse_nutrition_value none = 0 ∧
    (∀ s : String, pyFloat (stripOneSuffix (pyStrip s)) = none →
      parse_nutrition_value (some s) = 0) := by
  refine ⟨fun it hit => ?_, fun hnn it hit => ?_, rfl, fun s hs => ?_⟩
  · rcases mem_of_mem_load_menu_rows hit with ⟨r, hr, hR⟩
    exact ⟨r, hr, rowToItem_fields hR⟩
  · rcases mem_of_mem_load_menu_rows hit with ⟨r, hr, hR⟩
    rcases rowToItem_fields hR with ⟨h1, h2, h3, h4, h5⟩
    rcases hnn r hr with ⟨n1, n2, n3, n4, n5⟩
    exact ⟨by rw [h1]; exact n1, by rw [h2]; exact n2, by rw [h3]; exact n3,
      by rw [h4]; exact n4, by rw [h5]; exact n5⟩
  · rw [parse_some]
    by_cases he : s = ""
    · rw [if_pos he]
    · rw [if_neg he, hs]; rfl

/-- Witness for C7: at the one-row input `rowPizza1` all cells parse
non-negative, and the theorem yields non-negative macros for its concrete
loaded item `itemPizza`. -/
theorem c7_macros_from_parse_witness :
    0 ≤ itemPizza.calories ∧ 0 ≤ itemPizza.protein ∧ 0 ≤ itemPizza.carbs ∧
    0 ≤ itemPizza.fat ∧ 0 ≤ itemPizza.fiber :=
  (c7_macros_from_parse [rowPizza1]).2.1 (by decide) itemPizza (by decide)

end NutritionApp
